import Mathlib

/-!
# Verification of the browser-review-tool review pipeline

Shallow embedding of `src/index.mjs` of enoteware/browser-review-tool.
Pure data transformations (timestamp sampling, validation, cache
round-trip, retry logic) are embedded as executable Lean functions;
the stateful step/action execution loop is embedded as explicit state
passing over a page/file-system state.  External collaborators
(Playwright page, ffmpeg subprocess, generation service, wall clock)
are parameters: boolean availability/success flags, an oracle for the
generation service, and an explicit `now` string for timestamps.
-/

namespace BrowserReview

/-- JS `String.prototype.includes`: `pat` occurs as a contiguous
substring of `s`. -/
def strContains (s pat : String) : Bool :=
  decide (pat.toList <:+: s.toList)

/-- JS `a || b` for an optional string `a` (null/undefined or the empty
string are falsy). -/
def jsOrString (v : Option String) (dflt : String) : String :=
  match v with
  | none => dflt
  | some s => if s = "" then dflt else s

/-- JS `a || null` for an optional string: an empty string collapses to
null. -/
def jsOrNull (v : Option String) : Option String :=
  match v with
  | none => none
  | some s => if s = "" then none else some s

/-- JS `a || b` for an optional number `a` (null/undefined or 0 are
falsy). -/
def jsOrNat (v : Option Nat) (dflt : Nat) : Nat :=
  match v with
  | none => dflt
  | some n => if n = 0 then dflt else n

/-- JS truthiness of an optional string (`!!v`). -/
def jsTruthyStr (v : Option String) : Bool :=
  match v with
  | none => false
  | some s => s ≠ ""

/-- JS `path.join dir file` — the only join shape the pipeline uses. -/
def pathJoin (dir file : String) : String :=
  dir ++ "/" ++ file

/-- JS `String(n).padStart(3, '0')` used for slideshow frame numbering. -/
def padStart3 (n : Nat) : String :=
  let s := toString n
  if 3 ≤ s.length then s
  else String.mk (List.replicate (3 - s.length) '0') ++ s

/-- JS `step.name.replace(/\s+/g, '-').toLowerCase()`: every maximal run
of whitespace becomes a single `'-'` and letters are lowercased, in
one pass over the characters.  The boolean tracks whether the previous
character was whitespace (i.e. the run already emitted its dash). -/
def collapseWsLower (inWs : Bool) : List Char → List Char
  | [] => []
  | c :: rest =>
    if c.isWhitespace then
      if inWs then collapseWsLower true rest
      else '-' :: collapseWsLower true rest
    else
      c.toLower :: collapseWsLower false rest

/-- Sanitized step name used in artifact file names. -/
def sanitizeStepName (name : String) : String :=
  String.mk (collapseWsLower false name.toList)

/-! ## Data model

`Action` mirrors the JSON action objects: a string type tag plus the
optional fields the variants use (the source dispatches on
`action.type` at runtime, there is no closed union). -/

structure Action where
  type : String
  name : Option String := none
  selector : Option String := none
  text : Option String := none
  url : Option String := none
  ms : Option Nat := none
  x : Option Int := none
  y : Option Int := none
  fullPage : Option Bool := none
  waitAfter : Option Nat := none
deriving DecidableEq, Repr

/-- Artifact record as pushed onto the run's `artifacts` array.
The wall-clock `timestamp` field is not modelled (no claim mentions
it). -/
structure Artifact where
  type : String
  name : String
  path : String
  stepIndex : Int
  stepName : Option String
  frameCount : Option Nat := none
deriving DecidableEq, Repr

/-- Abstraction of the live Playwright page: current URL, scroll
position, the selectors present on the page (clicking / filling a
selector not in `elements` throws, like a Playwright timeout), the
text filled so far, and the cumulative waited milliseconds from settle
delays. -/
structure PageState where
  url : String
  scrollX : Int := 0
  scrollY : Int := 0
  elements : List String := []
  fills : List (String × String) := []
  waitedMs : Nat := 0
deriving DecidableEq, Repr

/-- Errors an action can raise (a failed Playwright interaction). -/
inductive ActionError where
  | elementNotFound (selector : String)
deriving DecidableEq, Repr

/-- The run-level configuration fields the step loop reads. -/
structure RunConfig where
  baseUrl : String
  artifactsDir : String
  slideshowFps : Option Nat := none
  videoFormat : String := "slideshow"
  gifQuality : Option String := none
deriving DecidableEq, Repr

/-- A configured step. -/
structure Step where
  name : String
  url : Option String := none
  record : Bool := false
  actions : List Action := []
  description : Option String := none
deriving DecidableEq, Repr

/-- Resolve a possibly relative URL against `baseUrl`
(`u.startsWith('http') ? u : baseUrl + u`). -/
def resolveUrl (baseUrl u : String) : String :=
  if u.startsWith "http" then u else baseUrl ++ u

/-! ## Action interpreter

`execAction` embeds the `switch (action.type)` statement that appears
(three times, with identical cases) in `runReview`
(src/index.mjs lines 1109–1147, 1211–1247, 1307–1340).  The JS switch
has cases for exactly `screenshot`, `click`, `type`, `wait`,
`navigate` and **no default case**: any other tag falls through,
doing nothing.  The switch is embedded as the equivalent sequential
string comparison.  Returns the updated page, the artifacts pushed
and the files written, or the interaction error. -/
def execAction (cfg : RunConfig) (stepIndex : Int) (stepName : Option String)
    (page : PageState) (a : Action) :
    Except ActionError (PageState × List Artifact × List String) :=
  if a.type = "screenshot" then
    let ssPath := pathJoin cfg.artifactsDir ((jsOrString a.name "screenshot") ++ ".png")
    let art : Artifact :=
      { type := "screenshot"
        name := jsOrString a.name "Screenshot"
        path := ssPath
        stepIndex := stepIndex
        stepName := stepName }
    .ok (page, [art], [ssPath])
  else if a.type = "click" then
    let sel := (a.selector).getD ""
    if sel ∈ page.elements then
      .ok ({ page with waitedMs := page.waitedMs + jsOrNat a.waitAfter 500 }, [], [])
    else
      .error (.elementNotFound sel)
  else if a.type = "type" then
    let sel := (a.selector).getD ""
    if sel ∈ page.elements then
      .ok ({ page with
              fills := page.fills ++ [(sel, (a.text).getD "")]
              waitedMs := page.waitedMs + jsOrNat a.waitAfter 300 }, [], [])
    else
      .error (.elementNotFound sel)
  else if a.type = "wait" then
    .ok ({ page with waitedMs := page.waitedMs + jsOrNat a.ms 1000 }, [], [])
  else if a.type = "navigate" then
    let navUrl := resolveUrl cfg.baseUrl ((a.url).getD "")
    .ok ({ page with url := navUrl, waitedMs := page.waitedMs + 500 }, [], [])
  else
    -- no matching case: the switch falls through silently
    .ok (page, [], [])

/-! ## Slideshow recording mode (src/index.mjs lines 1088–1187) -/

/-- Function `createSlideshowFromScreenshots` (lines 369–410): returns `false`
when ffmpeg is missing or no frames are given, otherwise the ffmpeg
invocation's success flag.  (The temporary `slideshow-concat.txt` file
is written and unlinked inside — no net file-system effect — so it is
not modelled.) -/
def createSlideshowFromScreenshots (hasFFmpeg ffmpegOk : Bool)
    (screenshotPaths : List String) : Bool :=
  hasFFmpeg && !screenshotPaths.isEmpty && ffmpegOk

/-- The cleanup loop of lines 1180–1184: for each collected slideshow
frame path, the file is unlinked iff the path contains `"-slide-"`. -/
def cleanupSlides (files : List String) (slides : List String) : List String :=
  slides.foldl
    (fun fs p => if strContains p "-slide-" then fs.filter (fun q => q ≠ p) else fs)
    files

/-- Result of running one step in slideshow mode: the artifacts pushed,
the files present in the artifacts directory afterward (in creation
order), the internal `slideshowScreenshots` list, and the final page. -/
structure SlideshowResult where
  artifacts : List Artifact
  files : List String
  slides : List String
  page : PageState
deriving DecidableEq, Repr

/-- The action loop of slideshow mode (lines 1107–1156): run each
action through the interpreter, collect explicit screenshot files into
the slideshow sequence, and after *every* action take one numbered
`{stepName}-slide-NNN.png` frame. -/
def slideshowActionLoop (cfg : RunConfig) (stepIndex : Int) (step : Step)
    (sn : String) :
    Nat → PageState → List Artifact → List String → List String → List Action →
    Except ActionError (Nat × PageState × List Artifact × List String × List String)
  | slideIndex, page, arts, files, slides, [] =>
    .ok (slideIndex, page, arts, files, slides)
  | slideIndex, page, arts, files, slides, a :: rest =>
    match execAction cfg stepIndex (some step.name) page a with
    | .error e => .error e
    | .ok (page', newArts, written) =>
      let slidePath := pathJoin cfg.artifactsDir (sn ++ "-slide-" ++ padStart3 slideIndex ++ ".png")
      slideshowActionLoop cfg stepIndex step sn (slideIndex + 1) page'
        (arts ++ newArts) (files ++ written ++ [slidePath])
        (slides ++ written ++ [slidePath]) rest

/-- One recorded step in slideshow mode (lines 1088–1187): navigate,
take the initial `-slide-000` frame, run the action loop, assemble the
slideshow and — on success — push the slideshow artifact and purge the
frame files whose path contains `"-slide-"`. -/
def runSlideshowStep (cfg : RunConfig) (hasFFmpeg ffmpegOk : Bool)
    (stepIndex : Int) (step : Step) (page0 : PageState) :
    Except ActionError SlideshowResult :=
  let sn := sanitizeStepName step.name
  let stepUrl := match step.url with
    | some u => resolveUrl cfg.baseUrl u
    | none => page0.url
  let page1 : PageState := { page0 with url := stepUrl, waitedMs := page0.waitedMs + 300 }
  let initialSsPath := pathJoin cfg.artifactsDir (sn ++ "-slide-000.png")
  match slideshowActionLoop cfg stepIndex step sn 1 page1 [] [initialSsPath]
      [initialSsPath] step.actions with
  | .error e => .error e
  | .ok (_, page2, arts, files, slides) =>
    if slides.length > 0 then
      let slideshowPath := pathJoin cfg.artifactsDir (sn ++ "-slideshow.webm")
      let created := createSlideshowFromScreenshots hasFFmpeg ffmpegOk slides
      if created then
        let art : Artifact :=
          { type := "slideshow"
            name := step.name
            path := slideshowPath
            frameCount := some slides.length
            stepIndex := stepIndex
            stepName := some step.name }
        .ok { artifacts := arts ++ [art]
              files := cleanupSlides (files ++ [slideshowPath]) slides
              slides := slides
              page := page2 }
      else
        .ok { artifacts := arts, files := files, slides := slides, page := page2 }
    else
      .ok { artifacts := arts, files := files, slides := slides, page := page2 }

/-! ## Config validation (src/index.mjs lines 1541–1612)

The raw config mirrors the JSON object `validateConfig` receives.
Fields are typed options, so the `typeof` mismatch branches of the
source (which also throw) are unrepresentable; every check that can
fire on a well-typed config is embedded, in source order.  URL
validity (`new URL(...)` succeeding) is an external collaborator and
is passed in as the predicate `urlOk`. -/

structure RawStep where
  name : Option String := none
  url : Option String := none
  record : Bool := false
  actions : Option (List Action) := none
  description : Option String := none
deriving DecidableEq, Repr

structure RawConfig where
  title : Option String := none
  url : Option String := none
  steps : Option (List RawStep) := none
  videoFormat : Option String := none
  gifQuality : Option String := none
  useAI : Option Bool := none
  aiModel : Option String := none
  aiProvider : Option String := none
  clientflowTaskUrl : Option String := none
  maxScreenshotsPerStep : Option Int := none
  description : Option String := none
  clientRequest : Option String := none
deriving DecidableEq, Repr

/-- The parsed CLI / runtime default video format (`DEFAULT_CONFIG`,
line 70). -/
def defaultVideoFormat : String := "slideshow"

/-- The per-step `name` check of the validation loop (lines
1558–1568). -/
def validateSteps : Nat → List RawStep → Except String Unit
  | _, [] => .ok ()
  | i, s :: rest =>
    if jsTruthyStr s.name = false then
      .error ("Step " ++ toString (i + 1) ++ ": name is required")
    else
      validateSteps (i + 1) rest

/-- Function `validateConfig` (lines 1541–1612) as a result value: `.error msg`
where the source throws. -/
def validateConfig (urlOk : String → Bool) (c : RawConfig) : Except String Unit :=
  if jsTruthyStr c.title = false then
    .error "--title is required and cannot be empty"
  else if jsTruthyStr c.url = false ∧ c.steps = none then
    .error "Either --url or --config with steps is required"
  else
    match (match c.steps with
           | some l => validateSteps 0 l
           | none => .ok ()) with
    | .error e => .error e
    | .ok () =>
      if (match c.videoFormat with
          | some v => v ≠ "" && v ≠ "gif" && v ≠ "webm"
          | none => false : Bool) then
        .error "videoFormat must be either \"gif\" or \"webm\""
      else if (match c.gifQuality with
               | some q => q ≠ "" && q ≠ "low" && q ≠ "medium" && q ≠ "high"
               | none => false : Bool) then
        .error "gifQuality must be \"low\", \"medium\", or \"high\""
      else if (match c.clientflowTaskUrl with
               | some u => u ≠ "" && !urlOk u
               | none => false : Bool) then
        .error "clientflowTaskUrl must be a valid URL"
      else if (match c.maxScreenshotsPerStep with
               | some m => decide (m ≤ 0)
               | none => false : Bool) then
        .error "maxScreenshotsPerStep must be a positive number"
      else
        .ok ()

/-! ## Video frame extraction for AI analysis
(src/index.mjs lines 306–366) -/

/-- The sampled timestamps of `extractVideoFrames` (lines 331–342):
for a duration of at most 3 s, `maxFrames` evenly spaced points
`(duration/(maxFrames+1))·(i+1)`; otherwise start (+0.5 s), midpoint
and 1 s before the end.  Durations are rationals (the JS numbers never
leave exact decimal arithmetic on these operations for the inputs the
claims concern). -/
def frameTimes (duration : ℚ) (maxFrames : Nat) : List ℚ :=
  if duration ≤ 3 then
    (List.range maxFrames).map
      (fun i : Nat => duration / ((maxFrames : ℚ) + 1) * ((i : ℚ) + 1))
  else
    [1/2, duration / 2, max (1/2) (duration - 1)]

/-- Function `extractVideoFrames` (lines 307–366) reduced to the timestamps it
samples: empty when ffmpeg is missing or the probed duration is not a
positive number, else the first `min (frameTimes ...).length maxFrames`
sampled times (the per-frame ffmpeg invocations themselves only write
the frame files).  -/
def extractVideoFrames (hasFFmpeg : Bool) (duration : ℚ) (maxFrames : Nat) : List ℚ :=
  if hasFFmpeg = false then []
  else if duration ≤ 0 then []
  else (frameTimes duration maxFrames).take maxFrames

/-! ## Description cache (src/index.mjs lines 508–538) -/

structure StepDescription where
  stepIndex : Int
  stepName : String
  description : Option String
deriving DecidableEq, Repr

/-- The persisted / in-memory description bundle (`config.json`).
`Option String` fields are `none` where the JSON holds `null` or the
key is absent. -/
structure DescriptionBundle where
  description : Option String := none
  clientRequest : Option String := none
  clientflowTaskUrl : Option String := none
  model : Option String := none
  generatedAt : Option String := none
  apiKeyType : Option String := none
  steps : List StepDescription := []
deriving DecidableEq, Repr

/-- Function `saveCachedDescriptions` (lines 524–538): the cache value written
to `<outputDir>/config.json` — the bundle spread, plus a fresh
`generatedAt`, `model` defaulted to `"gpt-4o"` when falsy, and
`apiKeyType` from the detected API key (`"unknown"` when none).  The
write is assumed to succeed (on failure the source only warns and the
file is left unchanged). -/
def saveCachedDescriptions (descriptions : DescriptionBundle) (now : String)
    (apiKeyType : Option String) : DescriptionBundle :=
  { descriptions with
    generatedAt := some now
    model := some (jsOrString descriptions.model "gpt-4o")
    apiKeyType := some (jsOrString apiKeyType "unknown") }

/-- Function `loadCachedDescriptions` (lines 509–521): parse the stored JSON
back; `none` when the file is absent or unreadable.  JSON
stringify/parse on the plain bundle record is the identity, so the
store is modelled as the bundle itself. -/
def loadCachedDescriptions (stored : Option DescriptionBundle) : Option DescriptionBundle :=
  stored

/-! ## GIF conversion and full-video finalization
(src/index.mjs lines 257–304 and 1261–1300) -/

/-- Functions `checkFFmpeg`/`convertVideoToGif` (lines 258–304): `false` without
raising when ffmpeg is absent, otherwise the success flag of the
two-pass palette conversion (the generated palette file is written and
unlinked inside — no net file-system effect). -/
def convertVideoToGif (hasFFmpeg ffmpegOk : Bool) : Bool :=
  hasFFmpeg && ffmpegOk

/-- Artifact/file state a finalization acts on. -/
structure MediaState where
  artifacts : List Artifact
  files : List String
deriving DecidableEq, Repr

/-- Remove one path from the file list (`fs.unlink`). -/
def unlinkFile (files : List String) (p : String) : List String :=
  files.filter (fun q => q ≠ p)

/-- Lines 1261–1300: the located recording `videoPath` is finalized.
With `videoFormat = "gif"` the video is handed to `convertVideoToGif`;
on success a gif artifact is pushed and the source video deleted, on
failure (including absent ffmpeg) the original video artifact is
pushed instead.  Any other format pushes the video artifact. -/
def finalizeRecordedVideo (cfg : RunConfig) (hasFFmpeg ffmpegOk : Bool)
    (stepIndex : Int) (stepName : String) (videoPath : String)
    (st : MediaState) : MediaState :=
  let sn := sanitizeStepName stepName
  if cfg.videoFormat = "gif" then
    let gifPath := pathJoin cfg.artifactsDir (sn ++ ".gif")
    let converted := convertVideoToGif hasFFmpeg ffmpegOk
    if converted then
      { artifacts := st.artifacts ++
          [{ type := "gif", name := stepName, path := gifPath
             stepIndex := stepIndex, stepName := some stepName }]
        files := unlinkFile (st.files ++ [gifPath]) videoPath }
    else
      { artifacts := st.artifacts ++
          [{ type := "video", name := stepName, path := videoPath
             stepIndex := stepIndex, stepName := some stepName }]
        files := st.files }
  else
    { artifacts := st.artifacts ++
        [{ type := "video", name := stepName, path := videoPath
           stepIndex := stepIndex, stepName := some stepName }]
      files := st.files }

/-! ## AI description generation (src/index.mjs lines 412–506) -/

/-- An error raised by the generation service call. -/
structure AIError where
  status : Option Nat := none
  message : String := ""
deriving DecidableEq, Repr

/-- The rate-limit test of line 485:
`error.status === 429 || error.message.includes('rate limit')`. -/
def isRateLimitError (e : AIError) : Bool :=
  e.status == some 429 || strContains e.message "rate limit"

/-- Observable outcome of `generateAIDescription`: the returned text or
thrown message, how many `generateText` service calls were made, and
the total backoff waited before retrying. -/
structure GenOutcome where
  result : Except String String
  serviceCalls : Nat
  waitedMs : Nat
deriving Repr

/-- Function `generateAIDescription` (lines 413–506).  The preamble (API key
presence, image reading) throws before any service call; `images` is
the list of readable image paths.  `service n` is the outcome of the
(n+1)-th `generateText` call.  On a first-call error matching the
rate-limit test, wait a fixed 2000 ms and retry exactly once; the
retry's failure or any other first-call error is rethrown wrapped. -/
def generateAIDescription (apiKey : Option String) (images : List String)
    (service : Nat → Except AIError String) : GenOutcome :=
  if apiKey = none then
    { result := .error "No API key found. Set AI_GATEWAY_API_KEY or OPENAI_API_KEY environment variable."
      serviceCalls := 0, waitedMs := 0 }
  else if images.isEmpty then
    { result := .error "No valid images to analyze", serviceCalls := 0, waitedMs := 0 }
  else
    match service 0 with
    | .ok t => { result := .ok t, serviceCalls := 1, waitedMs := 0 }
    | .error e =>
      if isRateLimitError e then
        match service 1 with
        | .ok t => { result := .ok t, serviceCalls := 2, waitedMs := 2000 }
        | .error e2 =>
          { result := .error ("AI generation failed after retry: " ++ e2.message)
            serviceCalls := 2, waitedMs := 2000 }
      else
        { result := .error ("AI generation failed: " ++ e.message)
          serviceCalls := 1, waitedMs := 0 }

/-! ## Per-step / overall description generation
(src/index.mjs lines 1387–1516)

The per-step generation call (the whole `generateAIDescription`
invocation for step `i`, retry included) is abstracted as the oracle
`genStep i`; the overall-description call as `genOverall`.  `.error`
is the call throwing. -/

/-- The config fields this phase reads. -/
structure DescConfig where
  title : String := ""
  description : Option String := none
  clientRequest : Option String := none
  clientflowTaskUrl : Option String := none
  aiModel : Option String := none
  maxScreenshotsPerStep : Option Nat := none
  forceAI : Bool := false

/-- The images gathered for step `i` (lines 1406–1450): that step's
artifacts of type `screenshot` or `frame`, in insertion order, capped
at `maxScreenshotsPerStep`.  `arts` is the run's artifact list with the
extracted-frame records appended, exactly how the source fills its
`artifactsByStep` map. -/
def stepImages (arts : List Artifact) (maxS : Nat) (i : Nat) : List String :=
  ((arts.filter (fun a =>
        a.stepIndex == (i : Int) && (a.type == "screenshot" || a.type == "frame"))).map
      (fun a => a.path)).take maxS

/-- The entry pushed for step `i` (lines 1432–1483): manual description
verbatim when present and regeneration is not forced; otherwise the
generated text, falling back to `step.description || null` when there
are no images or the generation call throws. -/
def stepDescriptionEntry (genStep : Nat → Except String String)
    (images : List String) (forceAI : Bool) (i : Nat) (step : Step) : StepDescription :=
  if jsTruthyStr step.description && !forceAI then
    { stepIndex := i, stepName := step.name, description := step.description }
  else if images.isEmpty then
    { stepIndex := i, stepName := step.name, description := jsOrNull step.description }
  else
    match genStep i with
    | .ok txt => { stepIndex := i, stepName := step.name, description := some txt }
    | .error _ => { stepIndex := i, stepName := step.name, description := jsOrNull step.description }

/-- The `for (stepIndex …)` loop of lines 1431–1484, from a starting
index. -/
def stepEntriesFrom (genStep : Nat → Except String String)
    (imagesOf : Nat → List String) (forceAI : Bool) :
    Nat → List Step → List StepDescription
  | _, [] => []
  | i, s :: rest =>
    stepDescriptionEntry genStep (imagesOf i) forceAI i s ::
      stepEntriesFrom genStep imagesOf forceAI (i + 1) rest

/-- Lines 1487–1506: the overall description is generated only when
none was supplied, from up to 5 screenshots of the whole run; a
throwing call leaves it null. -/
def overallDescription (initDesc : Option String)
    (genOverall : Except String String) (arts : List Artifact) : Option String :=
  match initDesc with
  | some d => some d
  | none =>
    let allImages :=
      ((arts.filter (fun a => a.type == "screenshot")).map (fun a => a.path)).take 5
    if allImages.isEmpty then none
    else
      match genOverall with
      | .ok t => some t
      | .error _ => none

/-- The AI description phase (lines 1397–1506): the bundle assembled
when regeneration runs (no cache reuse).  `arts` is the run's artifact
list, `frames` the extracted-frame records appended to the step
grouping. -/
def generateDescriptions (cfg : DescConfig) (steps : List Step)
    (arts frames : List Artifact) (genStep : Nat → Except String String)
    (genOverall : Except String String) : DescriptionBundle :=
  let maxS := jsOrNat cfg.maxScreenshotsPerStep 10
  let imagesOf := stepImages (arts ++ frames) maxS
  { description := overallDescription (jsOrNull cfg.description) genOverall arts
    clientRequest := jsOrNull cfg.clientRequest
    clientflowTaskUrl := jsOrNull cfg.clientflowTaskUrl
    model := some (jsOrString cfg.aiModel "gpt-4o")
    generatedAt := none
    apiKeyType := none
    steps := stepEntriesFrom genStep imagesOf cfg.forceAI 0 steps }

/-! ## Concrete fixtures used by the scenario theorems -/

/-- A run config with the stock base URL and artifacts directory. -/
def demoCfg : RunConfig :=
  { baseUrl := "http://localhost:7777", artifactsDir := "out/artifacts" }

/-- A page exposing the one selector the demo step clicks. -/
def demoPage : PageState :=
  { url := "http://localhost:7777/", elements := ["#go"] }

/-- The recorded step of the end-to-end slideshow scenario:
`[screenshot "before", click "#go", screenshot "after"]`. -/
def demoStep : Step :=
  { name := "S", record := true,
    actions := [ { type := "screenshot", name := some "before" },
                 { type := "click", selector := some "#go" },
                 { type := "screenshot", name := some "after" } ] }

/-- A recorded step whose only action is an explicit screenshot whose
name contains the sequence-frame marker `-slide-`. -/
def slideNamedStep : Step :=
  { name := "S", record := true,
    actions := [ { type := "screenshot", name := some "hero-slide-shot" } ] }

/-- Artifacts of a successful step run, `[]` if the step errored. -/
def runArtifacts (r : Except ActionError SlideshowResult) : List Artifact :=
  match r with
  | .ok res => res.artifacts
  | .error _ => []

/-- Files left on disk by a successful step run, `[]` if it errored. -/
def runFiles (r : Except ActionError SlideshowResult) : List String :=
  match r with
  | .ok res => res.files
  | .error _ => []

/-! ## Theorems -/

/-- C1 counterexample: an action whose type tag is the unrecognized
`"hover"` does **not** fail — `execAction` returns successfully with
the page untouched and no artifacts, because the source's
`switch (action.type)` has no default case.  This refutes the claim
that an unrecognized tag raises an `UnknownActionType` error. -/
theorem unknown_action_not_an_error :
    execAction demoCfg 0 (some "S") demoPage { type := "hover" }
      = .ok (demoPage, [], []) := by
  rfl

/-- C1 (amended): executing an action whose type tag is outside the
five cases the source's switch handles — `screenshot`, `click`,
`type`, `wait`, `navigate` (note: `scroll` is *not* among them) — is
silently skipped: it succeeds, changes nothing on the page and
produces no artifacts and no files. -/
theorem unknown_action_silently_skipped (cfg : RunConfig) (stepIndex : Int)
    (stepName : Option String) (page : PageState) (a : Action)
    (h : a.type ∉ ["screenshot", "click", "type", "wait", "navigate"]) :
    execAction cfg stepIndex stepName page a = .ok (page, [], []) := by
  simp only [List.mem_cons, List.not_mem_nil, or_false] at h
  push_neg at h
  obtain ⟨h1, h2, h3, h4, h5⟩ := h
  simp only [execAction, if_neg h1, if_neg h2, if_neg h3, if_neg h4, if_neg h5]

/-- Witness for C1 (amended): the tag `"hover"` is unrecognized and is
silently skipped. -/
theorem unknown_action_silently_skipped_witness :
    "hover" ∉ ["screenshot", "click", "type", "wait", "navigate"] ∧
    execAction demoCfg 0 (some "S") demoPage { type := "hover" }
      = .ok (demoPage, [], []) :=
  ⟨by decide,
   unknown_action_silently_skipped demoCfg 0 (some "S") demoPage
     { type := "hover" } (by decide)⟩

/-- C2: the parsed CLI/runtime default `videoFormat` is `"slideshow"`,
yet `validateConfig` rejects every config that sets
`videoFormat: "slideshow"` — its enum check admits only `"gif"` and
`"webm"`. -/
theorem slideshow_videoFormat_rejected :
    defaultVideoFormat = "slideshow" ∧
    ∀ (urlOk : String → Bool) (c : RawConfig),
      c.videoFormat = some "slideshow" →
      ∃ e, validateConfig urlOk c = .error e := by
  refine ⟨rfl, fun urlOk c h => ?_⟩
  unfold validateConfig
  split
  · exact ⟨_, rfl⟩
  · split
    · exact ⟨_, rfl⟩
    · split
      · exact ⟨_, rfl⟩
      · rw [h]
        exact ⟨_, rfl⟩

/-- Witness for C2: a fully well-formed config that explicitly sets
the documented default `videoFormat: "slideshow"` fails validation. -/
theorem slideshow_videoFormat_rejected_witness :
    ({ title := some "T", url := some "http://x/",
       videoFormat := some "slideshow" } : RawConfig).videoFormat
      = some "slideshow" ∧
    ∃ e, validateConfig (fun _ => true)
      { title := some "T", url := some "http://x/",
        videoFormat := some "slideshow" } = .error e :=
  ⟨rfl, slideshow_videoFormat_rejected.2 (fun _ => true) _ rfl⟩

/-- C4: a `scroll` action — documented to move the page's scroll
position to its explicit `x`/`y` coordinates — is a no-op: no switch
case handles the tag `"scroll"`, so the page (its scroll position
included) is returned unchanged and nothing is captured. -/
theorem scroll_action_is_noop (cfg : RunConfig) (stepIndex : Int)
    (stepName : Option String) (page : PageState) (x y : Int) :
    execAction cfg stepIndex stepName page
        { type := "scroll", x := some x, y := some y }
      = .ok (page, [], []) := by
  rfl

/-- C3: running the demo step `[screenshot "before", click,
screenshot "after"]` in slideshow mode with a working ffmpeg succeeds
and yields exactly the two explicit screenshot artifacts named
`"before"` and `"after"` and exactly one slideshow artifact; the two
explicit screenshot files survive on disk while zero auto-captured
`-slide-` numbered sequence frames remain. -/
theorem slideshow_demo_step_artifacts :
    (runSlideshowStep demoCfg true true 0 demoStep demoPage).isOk = true ∧
    ((runArtifacts (runSlideshowStep demoCfg true true 0 demoStep demoPage)).filter
        (fun a => a.type == "screenshot")).map Artifact.name = ["before", "after"] ∧
    ((runArtifacts (runSlideshowStep demoCfg true true 0 demoStep demoPage)).filter
        (fun a => a.type == "slideshow")).length = 1 ∧
    (runFiles (runSlideshowStep demoCfg true true 0 demoStep demoPage)).all
        (fun f => !strContains f "-slide-") = true ∧
    "out/artifacts/before.png"
        ∈ runFiles (runSlideshowStep demoCfg true true 0 demoStep demoPage) ∧
    "out/artifacts/after.png"
        ∈ runFiles (runSlideshowStep demoCfg true true 0 demoStep demoPage) := by
  decide

/-- C10: an explicit screenshot action named `"hero-slide-shot"` —
its name contains the substring `-slide-` — keeps its artifact record
in the step's artifact list, but after successful slideshow assembly
the cleanup (which classifies sequence frames solely by that substring
in the path) has deleted its image file from disk, so the artifact's
path no longer resolves to an existing file. -/
theorem slide_named_screenshot_file_deleted :
    strContains "hero-slide-shot" "-slide-" = true ∧
    ∃ a ∈ runArtifacts (runSlideshowStep demoCfg true true 0 slideNamedStep demoPage),
      a.type = "screenshot" ∧ a.name = "hero-slide-shot" ∧
      a.path ∉ runFiles (runSlideshowStep demoCfg true true 0 slideNamedStep demoPage) := by
  decide

/-- C5: frame extraction with a working ffmpeg: for a duration
`0 < d ≤ 3` and `maxFrames = n` it samples exactly the `n` timestamps
`(d/(n+1))·i`, `i = 1..n`, each strictly inside `(0, d)`; for the
boundary example `d = 2.4, n = 3` the timestamps are `0.6, 1.2, 1.8`;
for `d > 3` (with the call-site `maxFrames = 3`) it samples `0.5`,
`d/2` and `max 0.5 (d−1)`. -/
theorem frame_extraction_sampling (d : ℚ) (n : Nat) (h0 : 0 < d) :
    (d ≤ 3 →
      extractVideoFrames true d n
          = (List.range n).map (fun i : Nat => d / ((n : ℚ) + 1) * ((i : ℚ) + 1)) ∧
      (extractVideoFrames true d n).length = n ∧
      ∀ t ∈ extractVideoFrames true d n, 0 < t ∧ t < d) ∧
    (3 < d →
      extractVideoFrames true d 3 = [1/2, d / 2, max (1/2) (d - 1)]) ∧
    extractVideoFrames true (12/5) 3 = [3/5, 6/5, 9/5] := by
  have hn1 : (0 : ℚ) < (n : ℚ) + 1 := by positivity
  have hinst : extractVideoFrames true (12/5) 3 = [3/5, 6/5, 9/5] := by
    have h1 : ¬ (12/5 : ℚ) ≤ 0 := by norm_num
    have h2 : (12/5 : ℚ) ≤ 3 := by norm_num
    simp only [extractVideoFrames, frameTimes, Bool.false_eq_true, if_false,
      if_neg h1, if_pos h2, List.range_succ, List.range_zero]
    norm_num
  refine ⟨fun h3 => ?_, fun h3 => ?_, hinst⟩
  · have hne : ¬ d ≤ 0 := not_le.mpr h0
    have hex : extractVideoFrames true d n
        = (List.range n).map (fun i : Nat => d / ((n : ℚ) + 1) * ((i : ℚ) + 1)) := by
      simp only [extractVideoFrames, Bool.false_eq_true, if_false, if_neg hne,
        frameTimes, if_pos h3]
      refine List.take_of_length_le ?_
      simp
    refine ⟨hex, by rw [hex]; simp, ?_⟩
    intro t ht
    rw [hex] at ht
    simp only [List.mem_map, List.mem_range] at ht
    obtain ⟨i, hi, rfl⟩ := ht
    constructor
    · have : (0 : ℚ) < (i : ℚ) + 1 := by positivity
      exact mul_pos (div_pos h0 hn1) this
    · rw [div_mul_eq_mul_div, div_lt_iff₀ hn1]
      have hlt : ((i : ℚ) + 1) < (n : ℚ) + 1 := by
        have := Nat.add_lt_add_right hi 1
        exact_mod_cast this
      exact mul_lt_mul_of_pos_left hlt h0
  · have hne : ¬ d ≤ 0 := not_le.mpr h0
    have h3' : ¬ d ≤ 3 := not_le.mpr h3
    simp [extractVideoFrames, frameTimes, if_neg hne, if_neg h3']

/-- Witness for C5 at `d = 2, n = 3`. -/
theorem frame_extraction_sampling_witness :
    (0 : ℚ) < 2 ∧
    (((2 : ℚ) ≤ 3 →
      extractVideoFrames true 2 3
          = (List.range 3).map (fun i : Nat => 2 / ((3 : ℚ) + 1) * ((i : ℚ) + 1)) ∧
      (extractVideoFrames true 2 3).length = 3 ∧
      ∀ t ∈ extractVideoFrames true 2 3, 0 < t ∧ t < 2) ∧
    ((3 : ℚ) < 2 →
      extractVideoFrames true 2 3 = [1/2, 2 / 2, max (1/2) (2 - 1)]) ∧
    extractVideoFrames true (12/5) 3 = [3/5, 6/5, 9/5]) :=
  ⟨by norm_num, frame_extraction_sampling 2 3 (by norm_num)⟩

/-- C6 counterexample: saving an empty description bundle and loading
it back yields a bundle that differs from the original in more than
`generatedAt` — an `apiKeyType` field is added (here `"unknown"`) and
`model` is defaulted to `"gpt-4o"`. -/
theorem cache_roundtrip_not_identity :
    loadCachedDescriptions
        (some (saveCachedDescriptions {} "2026-01-01T00:00:00.000Z" none))
      ≠ some { ({} : DescriptionBundle) with
               generatedAt := (saveCachedDescriptions {} "2026-01-01T00:00:00.000Z"
                 none).generatedAt } := by
  decide

/-- C6 (amended): for every description bundle `D`, saving then
loading returns a value equal to `D` in the `description`,
`clientRequest`, `clientflowTaskUrl` and `steps` fields, with
`generatedAt` set to the save time, `model` defaulted to `"gpt-4o"`
when missing or empty, and `apiKeyType` overwritten from the detected
API key type (`"unknown"` when none). -/
theorem cache_roundtrip_amended (d : DescriptionBundle) (now : String)
    (apiKeyType : Option String) :
    loadCachedDescriptions (some (saveCachedDescriptions d now apiKeyType))
      = some { d with
               generatedAt := some now
               model := some (jsOrString d.model "gpt-4o")
               apiKeyType := some (jsOrString apiKeyType "unknown") } := by
  rfl

/-- C7: finalizing a recorded step in full-video mode with GIF format:
`convertVideoToGif` returns `false` (without raising) when ffmpeg is
unavailable; on successful conversion the gif artifact is appended and
the source video file is deleted; on failed conversion the original
video artifact is appended with the file kept — in every case exactly
one primary artifact for the step is appended, never none. -/
theorem gif_conversion_graceful (cfg : RunConfig) (hasFFmpeg ffmpegOk : Bool)
    (stepIndex : Int) (stepName videoPath : String) (st : MediaState)
    (hfmt : cfg.videoFormat = "gif") :
    convertVideoToGif false ffmpegOk = false ∧
    (convertVideoToGif hasFFmpeg ffmpegOk = true →
      (finalizeRecordedVideo cfg hasFFmpeg ffmpegOk stepIndex stepName videoPath st).artifacts
        = st.artifacts ++
          [{ type := "gif", name := stepName
             path := pathJoin cfg.artifactsDir (sanitizeStepName stepName ++ ".gif")
             stepIndex := stepIndex, stepName := some stepName }] ∧
      videoPath ∉
        (finalizeRecordedVideo cfg hasFFmpeg ffmpegOk stepIndex stepName videoPath st).files) ∧
    (convertVideoToGif hasFFmpeg ffmpegOk = false →
      (finalizeRecordedVideo cfg hasFFmpeg ffmpegOk stepIndex stepName videoPath st).artifacts
        = st.artifacts ++
          [{ type := "video", name := stepName, path := videoPath
             stepIndex := stepIndex, stepName := some stepName }] ∧
      (finalizeRecordedVideo cfg hasFFmpeg ffmpegOk stepIndex stepName videoPath st).files
        = st.files) ∧
    ∃ a ∈ (finalizeRecordedVideo cfg hasFFmpeg ffmpegOk stepIndex stepName videoPath st).artifacts,
      a.stepIndex = stepIndex ∧ a.stepName = some stepName ∧
      (a.type = "gif" ∨ a.type = "video") := by
  refine ⟨rfl, ?_, ?_, ?_⟩
  · intro hconv
    unfold finalizeRecordedVideo
    rw [if_pos hfmt, if_pos hconv]
    refine ⟨rfl, ?_⟩
    intro hmem
    simp only [unlinkFile, List.mem_filter, decide_eq_true_eq] at hmem
    exact hmem.2 rfl
  · intro hconv
    unfold finalizeRecordedVideo
    rw [if_pos hfmt]
    rw [hconv]
    exact ⟨rfl, rfl⟩
  · unfold finalizeRecordedVideo
    rw [if_pos hfmt]
    by_cases hconv : convertVideoToGif hasFFmpeg ffmpegOk = true
    · rw [if_pos hconv]
      exact ⟨_, List.mem_append_right _ (List.mem_singleton_self _),
             rfl, rfl, Or.inl rfl⟩
    · rw [if_neg hconv]
      exact ⟨_, List.mem_append_right _ (List.mem_singleton_self _),
             rfl, rfl, Or.inr rfl⟩

/-- Witness for C7: a gif-format config with working ffmpeg and a
second application with ffmpeg absent. -/
theorem gif_conversion_graceful_witness :
    ({ demoCfg with videoFormat := "gif" } : RunConfig).videoFormat = "gif" ∧
    (convertVideoToGif false true = false ∧
     (convertVideoToGif false true = true →
       (finalizeRecordedVideo { demoCfg with videoFormat := "gif" } false true 0 "S"
           "out/artifacts/v.webm" { artifacts := [], files := ["out/artifacts/v.webm"] }).artifacts
         = [] ++
           [{ type := "gif", name := "S"
              path := pathJoin ({ demoCfg with videoFormat := "gif" } : RunConfig).artifactsDir
                (sanitizeStepName "S" ++ ".gif")
              stepIndex := 0, stepName := some "S" }] ∧
       "out/artifacts/v.webm" ∉
         (finalizeRecordedVideo { demoCfg with videoFormat := "gif" } false true 0 "S"
             "out/artifacts/v.webm" { artifacts := [], files := ["out/artifacts/v.webm"] }).files) ∧
     (convertVideoToGif false true = false →
       (finalizeRecordedVideo { demoCfg with videoFormat := "gif" } false true 0 "S"
           "out/artifacts/v.webm" { artifacts := [], files := ["out/artifacts/v.webm"] }).artifacts
         = [] ++
           [{ type := "video", name := "S", path := "out/artifacts/v.webm"
              stepIndex := 0, stepName := some "S" }] ∧
       (finalizeRecordedVideo { demoCfg with videoFormat := "gif" } false true 0 "S"
           "out/artifacts/v.webm" { artifacts := [], files := ["out/artifacts/v.webm"] }).files
         = ({ artifacts := [], files := ["out/artifacts/v.webm"] } : MediaState).files) ∧
     ∃ a ∈ (finalizeRecordedVideo { demoCfg with videoFormat := "gif" } false true 0 "S"
         "out/artifacts/v.webm" { artifacts := [], files := ["out/artifacts/v.webm"] }).artifacts,
       a.stepIndex = 0 ∧ a.stepName = some "S" ∧ (a.type = "gif" ∨ a.type = "video")) :=
  ⟨rfl, gif_conversion_graceful { demoCfg with videoFormat := "gif" } false true 0 "S"
    "out/artifacts/v.webm" { artifacts := [], files := ["out/artifacts/v.webm"] } rfl⟩

/-- C9: `generateAIDescription`, once it reaches the generation call
(an API key is configured and at least one image was readable), makes
at most two service calls; a first failure matching the rate-limit
test waits exactly 2000 ms and retries exactly once, returning the
retry's text or a `generation failed after retry` error carrying the
underlying message; a first failure that is not a rate limit makes no
second call and raises `generation failed` with the underlying
message. -/
theorem ai_generation_retry_policy (k : String) (images : List String)
    (service : Nat → Except AIError String)
    (him : images.isEmpty = false) :
    (generateAIDescription (some k) images service).serviceCalls ≤ 2 ∧
    (∀ t, service 0 = .ok t →
      generateAIDescription (some k) images service
        = { result := .ok t, serviceCalls := 1, waitedMs := 0 }) ∧
    (∀ e, service 0 = .error e → isRateLimitError e = true →
      (generateAIDescription (some k) images service).serviceCalls = 2 ∧
      (generateAIDescription (some k) images service).waitedMs = 2000 ∧
      (generateAIDescription (some k) images service).result
        = (match service 1 with
           | .ok t => .ok t
           | .error e2 => .error ("AI generation failed after retry: " ++ e2.message))) ∧
    (∀ e, service 0 = .error e → isRateLimitError e = false →
      generateAIDescription (some k) images service
        = { result := .error ("AI generation failed: " ++ e.message)
            serviceCalls := 1, waitedMs := 0 }) := by
  have hkey : ¬ (some k = (none : Option String)) := by simp
  refine ⟨?_, ?_, ?_, ?_⟩
  · unfold generateAIDescription
    rw [if_neg hkey, if_neg (by rw [him]; exact Bool.false_ne_true)]
    cases h0 : service 0 with
    | ok t => exact Nat.le_of_lt (by norm_num)
    | error e =>
      dsimp only
      by_cases hrl : isRateLimitError e = true
      · rw [if_pos hrl]
        cases service 1 <;> exact Nat.le_refl 2
      · rw [if_neg hrl]
        exact Nat.le_of_lt (by norm_num)
  · intro t h0
    unfold generateAIDescription
    rw [if_neg hkey, if_neg (by rw [him]; exact Bool.false_ne_true), h0]
  · intro e h0 hrl
    unfold generateAIDescription
    rw [if_neg hkey, if_neg (by rw [him]; exact Bool.false_ne_true), h0]
    dsimp only
    rw [if_pos hrl]
    cases h1 : service 1 with
    | ok t => exact ⟨rfl, rfl, rfl⟩
    | error e2 => exact ⟨rfl, rfl, rfl⟩
  · intro e h0 hrl
    unfold generateAIDescription
    rw [if_neg hkey, if_neg (by rw [him]; exact Bool.false_ne_true), h0]
    dsimp only
    rw [if_neg (by rw [hrl]; exact Bool.false_ne_true)]

/-- Witness for C9: a single image, a service whose first call is a
429 rate-limit error and whose retry succeeds. -/
theorem ai_generation_retry_policy_witness :
    (["a.png"] : List String).isEmpty = false ∧
    ((generateAIDescription (some "sk") ["a.png"]
        (fun nth => if nth = 0 then .error { status := some 429, message := "slow down" }
                  else .ok "Retried text")).serviceCalls ≤ 2 ∧
     (∀ t, (fun nth : Nat =>
          if nth = 0 then (.error { status := some 429, message := "slow down" } :
              Except AIError String)
          else .ok "Retried text") 0 = .ok t →
        generateAIDescription (some "sk") ["a.png"]
            (fun nth => if nth = 0 then .error { status := some 429, message := "slow down" }
                      else .ok "Retried text")
          = { result := .ok t, serviceCalls := 1, waitedMs := 0 }) ∧
     (∀ e, (fun nth : Nat =>
          if nth = 0 then (.error { status := some 429, message := "slow down" } :
              Except AIError String)
          else .ok "Retried text") 0 = .error e → isRateLimitError e = true →
        (generateAIDescription (some "sk") ["a.png"]
            (fun nth => if nth = 0 then .error { status := some 429, message := "slow down" }
                      else .ok "Retried text")).serviceCalls = 2 ∧
        (generateAIDescription (some "sk") ["a.png"]
            (fun nth => if nth = 0 then .error { status := some 429, message := "slow down" }
                      else .ok "Retried text")).waitedMs = 2000 ∧
        (generateAIDescription (some "sk") ["a.png"]
            (fun nth => if nth = 0 then .error { status := some 429, message := "slow down" }
                      else .ok "Retried text")).result
          = (match (fun nth : Nat =>
                if nth = 0 then (.error { status := some 429, message := "slow down" } :
                    Except AIError String)
                else .ok "Retried text") 1 with
             | .ok t => .ok t
             | .error e2 => .error ("AI generation failed after retry: " ++ e2.message))) ∧
     (∀ e, (fun nth : Nat =>
          if nth = 0 then (.error { status := some 429, message := "slow down" } :
              Except AIError String)
          else .ok "Retried text") 0 = .error e → isRateLimitError e = false →
        generateAIDescription (some "sk") ["a.png"]
            (fun nth => if nth = 0 then .error { status := some 429, message := "slow down" }
                      else .ok "Retried text")
          = { result := .error ("AI generation failed: " ++ e.message)
              serviceCalls := 1, waitedMs := 0 })) :=
  ⟨rfl, ai_generation_retry_policy "sk" ["a.png"]
    (fun nth => if nth = 0 then .error { status := some 429, message := "slow down" }
              else .ok "Retried text") rfl⟩

/-- The step-entry loop produces one entry per configured step. -/
theorem stepEntriesFrom_length (g : Nat → Except String String)
    (io : Nat → List String) (f : Bool) :
    ∀ (l : List Step) (i : Nat), (stepEntriesFrom g io f i l).length = l.length
  | [], _ => rfl
  | _ :: rest, i => by
    simp only [stepEntriesFrom, List.length_cons,
      stepEntriesFrom_length g io f rest (i + 1)]

/-- The entry at position `k` of the loop started at index `i` is the
entry computed for step `i + k`. -/
theorem stepEntriesFrom_getElem? (g : Nat → Except String String)
    (io : Nat → List String) (f : Bool) :
    ∀ (l : List Step) (i k : Nat),
      (stepEntriesFrom g io f i l)[k]?
        = (l[k]?).map (fun s => stepDescriptionEntry g (io (i + k)) f (i + k) s)
  | [], _, _ => by simp [stepEntriesFrom]
  | s :: rest, i, 0 => by simp [stepEntriesFrom]
  | s :: rest, i, k + 1 => by
    have harith : i + 1 + k = i + (k + 1) := by omega
    simp only [stepEntriesFrom, List.getElem?_cons_succ,
      stepEntriesFrom_getElem? g io f rest (i + 1) k, harith]

/-- A step's entry only reads the generation oracle at that step's
index. -/
theorem stepDescriptionEntry_congr (g g' : Nat → Except String String)
    (im : List String) (f : Bool) (i : Nat) (s : Step)
    (h : g i = g' i) :
    stepDescriptionEntry g im f i s = stepDescriptionEntry g' im f i s := by
  unfold stepDescriptionEntry
  rw [h]

/-- When the manual-skip test is off and the generation call throws,
the entry falls back to `step.description || null`, whether or not
there were images. -/
theorem stepDescriptionEntry_of_error (g : Nat → Except String String)
    (im : List String) (f : Bool) (i : Nat) (s : Step) (e : String)
    (h1 : (jsTruthyStr s.description && !f) = false)
    (h2 : g i = .error e) :
    stepDescriptionEntry g im f i s
      = { stepIndex := i, stepName := s.name, description := jsOrNull s.description } := by
  unfold stepDescriptionEntry
  rw [if_neg (by rw [h1]; exact Bool.false_ne_true)]
  by_cases him : im.isEmpty = true
  · rw [if_pos him]
  · rw [if_neg him, h2]

/-- C8: if per-step AI description generation throws for step `i`
(and step `i` is not skipped via a pre-supplied manual description),
the failure is absorbed: one entry per step is still produced, step
`i`'s entry is its manual description or null, entries of steps other
than `i` do not depend on the oracle's behaviour at `i`, and the
overall description is computed from the overall generation call alone
— one step's failure never aborts the run. -/
theorem step_description_failure_isolated
    (cfg : DescConfig) (steps : List Step) (arts frames : List Artifact)
    (g : Nat → Except String String) (go : Except String String)
    (i : Nat) (e : String) (hi : i < steps.length)
    (hfail : g i = .error e)
    (hskip : (jsTruthyStr (steps.get ⟨i, hi⟩).description && !cfg.forceAI) = false) :
    ((generateDescriptions cfg steps arts frames g go).steps.length = steps.length) ∧
    ((generateDescriptions cfg steps arts frames g go).steps[i]?
      = some { stepIndex := i
               stepName := (steps.get ⟨i, hi⟩).name
               description := jsOrNull (steps.get ⟨i, hi⟩).description }) ∧
    (∀ (g' : Nat → Except String String), (∀ j, j ≠ i → g' j = g j) →
      ∀ j, j ≠ i →
        (generateDescriptions cfg steps arts frames g' go).steps[j]?
          = (generateDescriptions cfg steps arts frames g go).steps[j]?) ∧
    ((generateDescriptions cfg steps arts frames g go).description
      = overallDescription (jsOrNull cfg.description) go arts) := by
  refine ⟨?_, ?_, ?_, rfl⟩
  · exact stepEntriesFrom_length _ _ _ steps 0
  · rw [show (generateDescriptions cfg steps arts frames g go).steps
        = stepEntriesFrom g
            (stepImages (arts ++ frames) (jsOrNat cfg.maxScreenshotsPerStep 10))
            cfg.forceAI 0 steps from rfl]
    rw [stepEntriesFrom_getElem?]
    rw [List.getElem?_eq_getElem hi]
    simp only [Nat.zero_add, Option.map_some']
    rw [show steps[i] = steps.get ⟨i, hi⟩ from rfl]
    rw [stepDescriptionEntry_of_error _ _ _ _ _ e hskip hfail]
  · intro g' hagree j hj
    rw [show (generateDescriptions cfg steps arts frames g go).steps
        = stepEntriesFrom g
            (stepImages (arts ++ frames) (jsOrNat cfg.maxScreenshotsPerStep 10))
            cfg.forceAI 0 steps from rfl]
    rw [show (generateDescriptions cfg steps arts frames g' go).steps
        = stepEntriesFrom g'
            (stepImages (arts ++ frames) (jsOrNat cfg.maxScreenshotsPerStep 10))
            cfg.forceAI 0 steps from rfl]
    rw [stepEntriesFrom_getElem?, stepEntriesFrom_getElem?]
    cases hsj : steps[j]? with
    | none => rfl
    | some s =>
      simp only [Option.map_some', Option.some.injEq]
      exact stepDescriptionEntry_congr g' g _ _ _ s
        (hagree (0 + j) (by omega))

/-- Concrete two-step fixture for the C8 witness. -/
def demoSteps : List Step := [{ name := "A" }, { name := "B" }]

/-- Oracle failing on step 0 and succeeding elsewhere. -/
def demoGen : Nat → Except String String :=
  fun j => if j = 0 then .error "boom" else .ok "generated"

/-- Witness for C8: step 0's generation throws; its entry falls back
to null, both steps still get entries, step 1's entry ignores step 0's
oracle behaviour, and the overall description is still computed. -/
theorem step_description_failure_isolated_witness :
    0 < demoSteps.length ∧ demoGen 0 = .error "boom" ∧
    (jsTruthyStr (none : Option String) && !(({} : DescConfig).forceAI)) = false ∧
    (((generateDescriptions {} demoSteps [] [] demoGen (.ok "overall")).steps.length
        = demoSteps.length) ∧
     ((generateDescriptions {} demoSteps [] [] demoGen (.ok "overall")).steps[0]?
        = some { stepIndex := 0, stepName := "A", description := none }) ∧
     (∀ (g' : Nat → Except String String), (∀ j, j ≠ 0 → g' j = demoGen j) →
       ∀ j, j ≠ 0 →
         (generateDescriptions {} demoSteps [] [] g' (.ok "overall")).steps[j]?
           = (generateDescriptions {} demoSteps [] [] demoGen (.ok "overall")).steps[j]?) ∧
     ((generateDescriptions {} demoSteps [] [] demoGen (.ok "overall")).description
        = overallDescription (jsOrNull ({} : DescConfig).description) (.ok "overall") [])) :=
  ⟨by decide, rfl, rfl,
   step_description_failure_isolated {} demoSteps [] [] demoGen (.ok "overall")
     0 "boom" (by decide) rfl rfl⟩

end BrowserReview
